import Mathlib

/-!
Shallow embedding of the `python-cheatsheet` teaching repository: the
data-processing pipeline (`clean_data`, `process_data`, `validate_input`,
`analyze_data`), the property-based validation demos of
`Section_18_Property/create_property.py`, the exception-handling demos of
`Section_8_Exception_Handling`, and the class-level counters of
`Section_16_Classes_Objects`.
-/

/-- Python exception values that occur in the embedded scripts, carrying the
message they were raised with. -/
inductive PyExc where
  | typeError (msg : String)
  | valueError (msg : String)
  | zeroDivisionError (msg : String)
  deriving DecidableEq

/-- Python run-time values that the embedded validation code can receive:
integers, floats (modelled exactly as rationals, since the scripts only
compare them with `0` and truncate them), strings, lists of numbers, and
`None`. -/
inductive PyVal where
  | int (n : Int)
  | float (q : Rat)
  | str (s : String)
  | list (xs : List Int)
  | pyNone
  deriving DecidableEq

/-- `isinstance(value, (int, float))`. -/
def PyVal.isNumber : PyVal → Bool
  | .int _ => true
  | .float _ => true
  | _ => false

/-- `isinstance(value, str)`. -/
def PyVal.isStr : PyVal → Bool
  | .str _ => true
  | _ => false

/-- `isinstance(value, list)`. -/
def PyVal.isList : PyVal → Bool
  | .list _ => true
  | _ => false

/-- Does the value have Python type `int`? -/
def PyVal.isInt : PyVal → Bool
  | .int _ => true
  | _ => false

/-- `value < 0` on a Python number (the scripts only compare numbers). -/
def PyVal.ltZero : PyVal → Bool
  | .int n => decide (n < 0)
  | .float q => decide (q < 0)
  | _ => false

/-- `value >= 0` on a Python number; `false` on non-numbers. -/
def PyVal.nonNeg : PyVal → Bool
  | .int n => decide (0 ≤ n)
  | .float q => decide (0 ≤ q)
  | _ => false

/-- Numeric value of a decimal digit character. -/
def digitVal (c : Char) : Nat := c.toNat - '0'.toNat

/-- Value of a list of decimal digit characters, most significant first. -/
def digitsVal (cs : List Char) : Nat :=
  cs.foldl (fun acc c => 10 * acc + digitVal c) 0

/-- Surrounding whitespace removed from a character list, as `str.strip()`
does before `int()` parses a string. -/
def stripEnds (cs : List Char) : List Char :=
  ((cs.dropWhile Char.isWhitespace).reverse.dropWhile Char.isWhitespace).reverse

/-- Python `int(s)` on a string: strip surrounding whitespace, allow one
optional sign, then at least one decimal digit.  (CPython also accepts
underscore separators and non-ASCII digits; the embedded scripts never use
them.)  `none` models the `ValueError` CPython raises on any other string. -/
def parseIntStr (s : String) : Option Int :=
  match stripEnds s.toList with
  | [] => none
  | '+' :: rest =>
      if rest ≠ [] && rest.all Char.isDigit then some (digitsVal rest) else none
  | '-' :: rest =>
      if rest ≠ [] && rest.all Char.isDigit then some (-(digitsVal rest : Int)) else none
  | cs =>
      if cs.all Char.isDigit then some (digitsVal cs) else none

/-- Python `int(value)` on an arbitrary value, with the exception CPython
raises on failure: `ValueError` for an unparsable string, `TypeError` for a
value that is neither a number nor a string.  `int` is the identity on `int`
and truncates a `float` toward zero. -/
def intConvExc : PyVal → Except PyExc Int
  | .int n => .ok n
  | .float q => .ok (q.num.tdiv (q.den : Int))
  | .str s =>
      match parseIntStr s with
      | some n => .ok n
      | none => .error (.valueError ("invalid literal for int() with base 10: " ++ s))
  | .list _ => .error (.typeError "int() argument must be a string or a number, not list")
  | .pyNone => .error (.typeError "int() argument must be a string or a number, not NoneType")

/-!
The `data_processing_project` pipeline.
`clean_data` is `Section_10_More_on_function/data_processing_project/cleaner/cleaner.py`;
`process_data` and `validate_input` are
`Section_11_Modules_packages.py/data_processing_project/utils/utils.py`.
-/

/-- Internal function to remove duplicates: `list(set(data))`.  CPython
iterates a set in an unspecified order, so the embedding picks
`List.dedup` as a deterministic representative; only order-independent
facts (membership, no-duplicates, length) are stated about it. -/
def _remove_duplicates (data : List Int) : List Int := data.dedup

/-- Public function to clean data (delegates to `_remove_duplicates`). -/
def clean_data (data : List Int) : List Int := _remove_duplicates data

/-- Public function to process data: `[x * 2 for x in data]`. -/
def process_data (data : List Int) : List Int := data.map (fun x => x * 2)

/-- Public function to validate input: raise `ValueError("Input must be a
list.")` unless `isinstance(data, list)`, else return `True`.  The source
only reads `data`, so the embedding is a pure function: the input is never
modified. -/
def validate_input (data : PyVal) : Except PyExc Bool :=
  if data.isList then .ok true else .error (.valueError "Input must be a list.")

/-- Modelled from the spec: `analyze_data` lives in the `analyzer` package,
which is referenced by `main.py` and the package `__init__`, but its source
file is absent from the repository snapshot.  The spec says it "presumably
returns a length or summary statistic" and `main.py` prints its result as
"Final result length", so it is modelled as the length of its input. -/
def analyze_data (data : List Int) : Nat := data.length

/-!
The property-evolution demo, `Section_18_Property/create_property.py`.
Each setter is embedded as a function from the assigned value to
`Except PyExc PyVal` (or `Except PyExc Int`): `.ok v` means the assignment
succeeds and stores `v`, `.error e` means it raises `e`.
-/

/-- `Employee1.set_age`: `int(age)` then reject negatives, with every
`ValueError` (either from `int()` or from the range check) re-raised as
`ValueError(f"Invalid age value: ...")` by the surrounding handler.  (The
message's interpolated value is elided.) -/
def Employee1.set_age (age : PyVal) : Except PyExc Int :=
  let body : Except PyExc Int :=
    match intConvExc age with
    | .ok check_age =>
        if check_age < 0 then .error (.valueError "Age should be positive")
        else .ok check_age
    | .error e => .error e
  match body with
  | .error (.valueError _) => .error (.valueError "Invalid age value")
  | r => r

/-- Age validation shared by `Employee2.set_age`, `Employee3.set_age` and the
`Employee4` `age` setter (they differ only in the `ValueError` message): a
value that is not an `int` or `float` is passed through `int()`, any
conversion failure becoming `TypeError("Age must be numeric, ...")`; then a
negative value raises `ValueError msg`; otherwise the (possibly converted)
value is stored.  Note a `float` is stored unchanged, without conversion. -/
def set_age_common (msg : String) (value : PyVal) : Except PyExc PyVal :=
  let converted : Except PyExc PyVal :=
    if value.isNumber then .ok value
    else
      match intConvExc value with
      | .ok n => .ok (.int n)
      | .error _ => .error (.typeError "Age must be numeric, got non-numeric type")
  match converted with
  | .error e => .error e
  | .ok v => if v.ltZero then .error (.valueError msg) else .ok v

/-- `Employee2.set_age` (manual setter). -/
def Employee2.set_age (value : PyVal) : Except PyExc PyVal :=
  set_age_common "Age must be positive" value

/-- The `Employee4` `@age.setter`. -/
def Employee4.age_setter (value : PyVal) : Except PyExc PyVal :=
  set_age_common "Age must be a positive number" value

/-- Name validation shared by `Employee2.set_name`, `Employee3.set_name` and
the `Employee4` `name` setter: raise `TypeError` unless the value is a
string, else store it unchanged. -/
def set_name_common (value : PyVal) : Except PyExc PyVal :=
  match value with
  | .str s => .ok (.str s)
  | _ => .error (.typeError "Name must be a string, got non-string type")

/-- The `Employee4` `@name.setter`. -/
def Employee4.name_setter (value : PyVal) : Except PyExc PyVal :=
  set_name_common value

instance {ε α : Type} [DecidableEq ε] [DecidableEq α] : DecidableEq (Except ε α) := fun
  | .ok a, .ok b =>
      if h : a = b then .isTrue (by rw [h])
      else .isFalse (by intro hh; cases hh; exact h rfl)
  | .ok _, .error _ => .isFalse (by intro h; cases h)
  | .error _, .ok _ => .isFalse (by intro h; cases h)
  | .error e, .error f =>
      if h : e = f then .isTrue (by rw [h])
      else .isFalse (by intro hh; cases hh; exact h rfl)

/-!
The exception-handling scripts of `Section_8_Exception_Handling`.  All three
share the same `try` body; they differ only in which `except` clauses follow
it, and whether a `finally` clause is present.
-/

/-- How a call of `exception_handling_demo` ends: the function returns a
value, an exception is caught by one of its `except` clauses (which reports
it to the console) and the function returns `None`, or an exception escapes
the function to its caller. -/
inductive Outcome where
  | returned (s : String)
  | caught (e : PyExc)
  | uncaught (e : PyExc)
  deriving DecidableEq

/-- The shared `try` body: read `age` from the console, compute
`100 / int(age)` and print it, then `return "Success"`.  `int(age)` raises
`ValueError` on a non-numeric string; the division raises
`ZeroDivisionError` when `int(age)` is `0`.  (The printed quotient is a
`float` that does not influence control flow and is not modelled.) -/
def exception_body (age : String) : Except PyExc String :=
  match parseIntStr age with
  | none => .error (.valueError ("invalid literal for int() with base 10: " ++ age))
  | some n =>
      if n = 0 then .error (.zeroDivisionError "division by zero")
      else .ok "Success"

/-- `try.py`: the body with a single `except ValueError` clause.  Any other
exception escapes to the caller. -/
def try_demo (age : String) : Outcome :=
  match exception_body age with
  | .ok s => .returned s
  | .error (.valueError m) => .caught (.valueError m)
  | .error e => .uncaught e

/-- `try_except.py`: the body with `except ZeroDivisionError` and
`except ValueError` clauses. -/
def try_except_demo (age : String) : Outcome :=
  match exception_body age with
  | .ok s => .returned s
  | .error (.zeroDivisionError m) => .caught (.zeroDivisionError m)
  | .error (.valueError m) => .caught (.valueError m)
  | .error e => .uncaught e

/-- Result of a run of `try_except_finally.py`: the outcome together with
whether the `finally` clause (which prints its fixed message) executed. -/
structure DemoRun where
  outcome : Outcome
  cleanupRan : Bool
  deriving DecidableEq

/-- Leaving `exception_handling_demo` of `try_except_finally.py` along any
path — return, handled exception, or escaping exception — passes through the
`finally` clause first; this is Python's guarantee for `finally`, and the
embedding threads every exit of the function through this wrapper. -/
def run_finally (o : Outcome) : DemoRun := ⟨o, true⟩

/-- `try_except_finally.py`: the body with `except ZeroDivisionError` and
`except ValueError` clauses and a `finally` clause. -/
def try_except_finally_demo (age : String) : DemoRun :=
  match exception_body age with
  | .ok s => run_finally (.returned s)
  | .error (.zeroDivisionError m) => run_finally (.caught (.zeroDivisionError m))
  | .error (.valueError m) => run_finally (.caught (.valueError m))
  | .error e => run_finally (.uncaught e)

/-!
Class-level counters: `Student.total_students` in
`Section_16_Classes_Objects/class_method.py` and `Smartphone.Counter` in
`Section_16_Classes_Objects/attribute.py`.  Each class is embedded as a
transition system on its class attribute; the operations are the things a
script can do with the class.
-/

/-- Operations on the `Student` class: `Student(name)` (whose `__init__`
stores the instance attribute `name` and runs `Student.total_students += 1`),
`introduce(self)` (prints a greeting), and the classmethod `student_count`
(prints the counter). -/
inductive StudentOp where
  | construct (name : String)
  | introduce
  | student_count
  deriving DecidableEq

/-- Is the operation a construction? -/
def StudentOp.isConstruct : StudentOp → Bool
  | .construct _ => true
  | _ => false

/-- Initial value of the class attribute `Student.total_students`. -/
def total_students_init : Nat := 0

/-- Effect of one `Student` operation on `Student.total_students`: only
`__init__` touches it, incrementing it by one. -/
def studentStep (total_students : Nat) : StudentOp → Nat
  | .construct _ => total_students + 1
  | .introduce => total_students
  | .student_count => total_students

/-- Value of `Student.total_students` after a sequence of operations run
from a fresh class. -/
def runStudentOps (ops : List StudentOp) : Nat :=
  ops.foldl studentStep total_students_init

/-- Operations on the `Smartphone` class: `Smartphone(model, type)` (whose
`__init__` stores the two instance attributes and runs
`Smartphone.Counter += 1`), the instance method `features` (prints), and the
instance-attribute assignments `smart.model, smart.type = ...` done by the
script (which touch only instance attributes). -/
inductive SmartphoneOp where
  | construct (model type_ : Option String)
  | features
  | set_model_type (model type_ : String)
  deriving DecidableEq

/-- Is the operation a construction? -/
def SmartphoneOp.isConstruct : SmartphoneOp → Bool
  | .construct _ _ => true
  | _ => false

/-- Initial value of the class attribute `Smartphone.Counter`. -/
def counter_init : Nat := 0

/-- Effect of one `Smartphone` operation on `Smartphone.Counter`: only
`__init__` touches it, incrementing it by one. -/
def smartphoneStep (counter : Nat) : SmartphoneOp → Nat
  | .construct _ _ => counter + 1
  | .features => counter
  | .set_model_type _ _ => counter

/-- Value of `Smartphone.Counter` after a sequence of operations run from a
fresh class. -/
def runSmartphoneOps (ops : List SmartphoneOp) : Nat :=
  ops.foldl smartphoneStep counter_init

/-!
Theorems about the claims.
-/

/-- C1: `process_data` multiplies every element of its input by two: the
result is the elementwise map of `2 * x`, it has the same length as the
input, and its `i`-th element is twice the input's `i`-th element (same
order). -/
theorem C1_process_data_doubles (l : List Int) :
    process_data l = l.map (fun x => 2 * x) ∧
    (process_data l).length = l.length ∧
    ∀ i : Nat, (process_data l)[i]? = l[i]?.map (fun x => 2 * x) := by
  refine ⟨?_, by simp [process_data], ?_⟩
  · unfold process_data
    induction l with
    | nil => rfl
    | cons x xs ih => simp [ih, Int.mul_comm]
  · intro i
    simp [process_data, List.getElem?_map, Int.mul_comm]

/-- C2: `clean_data` returns a list containing each distinct element of its
input exactly once and nothing else; on `[1,2,3,4,4,5]` its result is a
permutation of `[1,2,3,4,5]` (the order is unspecified in the source, so
only order-independent facts are claimed). -/
theorem C2_clean_data_dedups (l : List Int) :
    (clean_data l).Nodup ∧
    (∀ a : Int, a ∈ clean_data l ↔ a ∈ l) ∧
    (clean_data [1,2,3,4,4,5]).Perm [1,2,3,4,5] := by
  refine ⟨List.nodup_dedup l, fun a => List.mem_dedup, by decide⟩

/-- C3: age validation maps the string "30" to the integer 30 and succeeds,
fails with an exception on `-5`, and fails with an exception on the
non-numeric string "abc" — both for the `Employee4` property setter and for
`Employee1.set_age`. -/
theorem C3_age_validation_examples :
    Employee4.age_setter (.str "30") = .ok (.int 30) ∧
    Employee4.age_setter (.int (-5)) = .error (.valueError "Age must be a positive number") ∧
    Employee4.age_setter (.str "abc") = .error (.typeError "Age must be numeric, got non-numeric type") ∧
    Employee1.set_age (.str "30") = .ok 30 ∧
    Employee1.set_age (.int (-5)) = .error (.valueError "Invalid age value") ∧
    Employee1.set_age (.str "abc") = .error (.valueError "Invalid age value") := by
  decide

/-- C8: on the raw input `[1,2,3,4,4,5]` of `main.py`, the composition
`process_data (clean_data ...)` has length 5 and its elements are exactly
`[2,4,6,8,10]` up to permutation, so `analyze_data` reports a final result
length of 5. -/
theorem C8_pipeline_result :
    (process_data (clean_data [1,2,3,4,4,5])).length = 5 ∧
    (process_data (clean_data [1,2,3,4,4,5])).Perm [2,4,6,8,10] ∧
    analyze_data (process_data (clean_data [1,2,3,4,4,5])) = 5 := by
  decide

/-- Every run of the shared try body ends in exactly one of three ways:
return "Success", a ZeroDivisionError, or a ValueError. -/
theorem exception_body_cases (age : String) :
    exception_body age = .ok "Success" ∨
    (∃ m, exception_body age = .error (.zeroDivisionError m)) ∨
    (∃ m, exception_body age = .error (.valueError m)) := by
  unfold exception_body
  cases parseIntStr age with
  | none => exact .inr (.inr ⟨_, rfl⟩)
  | some n =>
      by_cases hn : n = 0
      · exact .inr (.inl ⟨"division by zero", by simp [hn]⟩)
      · exact .inl (by simp [hn])

/-- C7: in `try_except_finally.py` the `finally` clause executes on every run
of `exception_handling_demo`, whatever the input: whether the body returns
"Success", a `ZeroDivisionError` is caught, or a `ValueError` is caught. -/
theorem C7_finally_always_runs (age : String) :
    (try_except_finally_demo age).cleanupRan = true ∧
    ((try_except_finally_demo age).outcome = .returned "Success" ∨
     (∃ m, (try_except_finally_demo age).outcome = .caught (.zeroDivisionError m)) ∨
     (∃ m, (try_except_finally_demo age).outcome = .caught (.valueError m))) := by
  rcases exception_body_cases age with h | ⟨m, h⟩ | ⟨m, h⟩ <;>
    simp [try_except_finally_demo, run_finally, h]

/-- C6 counterexample: in `try.py`, which has only an `except ValueError`
clause, the input "0" makes the division raise a `ZeroDivisionError` that is
not caught and escapes `exception_handling_demo` to its caller — contradicting
the claim that in every script nothing propagates out. -/
theorem C6_counterexample :
    try_demo "0" = Outcome.uncaught (.zeroDivisionError "division by zero") := by
  decide

/-- C6 amended: in `try_except.py` and `try_except_finally.py` every
exception the body can raise is caught locally, and nothing escapes the
function on any input; in `try.py` the `ValueError` of invalid numeric input
is caught locally, and the only exception that can escape is the
`ZeroDivisionError` of a zero input. -/
theorem C6_propagation_policy (age : String) :
    (∀ e, try_except_demo age ≠ Outcome.uncaught e) ∧
    (∀ e, (try_except_finally_demo age).outcome ≠ Outcome.uncaught e) ∧
    (∀ m, try_demo age ≠ Outcome.uncaught (.valueError m)) ∧
    (∀ m, try_demo age ≠ Outcome.uncaught (.typeError m)) := by
  rcases exception_body_cases age with h | ⟨m, h⟩ | ⟨m, h⟩ <;>
    simp [try_except_demo, try_except_finally_demo, try_demo, run_finally, h]

/-- C6 amended, instantiated: even on the input "0" the two-handler script
catches the division error instead of letting it escape. -/
theorem C6_propagation_policy_witness :
    try_except_demo "0" ≠ Outcome.uncaught (.zeroDivisionError "division by zero") :=
  (C6_propagation_policy "0").1 _

/-- C9: `validate_input` returns `True` on every list argument, including the
empty list; on every non-list argument it raises `ValueError("Input must be a
list.")` and it never raises a `TypeError`.  (The embedding is a pure
function because the source only reads its argument, so the input is never
modified.) -/
theorem C9_validate_input (v : PyVal) (xs : List Int) :
    validate_input (.list xs) = .ok true ∧
    validate_input (.list []) = .ok true ∧
    (v.isList = false → validate_input v = .error (.valueError "Input must be a list.")) ∧
    (v.isList = true → validate_input v = .ok true) ∧
    ∀ m, validate_input v ≠ .error (.typeError m) := by
  refine ⟨rfl, rfl, ?_, ?_, ?_⟩ <;> cases v <;> simp [validate_input, PyVal.isList]

/-- C9, instantiated: a non-list argument gets the `ValueError`, and the
empty list is accepted. -/
theorem C9_validate_input_witness :
    validate_input (.int 3) = .error (.valueError "Input must be a list.") ∧
    validate_input (.list []) = .ok true :=
  ⟨(C9_validate_input (.int 3) []).2.2.1 rfl, (C9_validate_input (.int 3) []).1⟩

/-- C5: the name setter accepts every string and stores it unchanged, and
raises a `TypeError` on every value that is not a string. -/
theorem C5_name_validation (v : PyVal) (s : String) :
    Employee4.name_setter (.str s) = .ok (.str s) ∧
    (v.isStr = false → ∃ m, Employee4.name_setter v = .error (.typeError m)) := by
  refine ⟨rfl, ?_⟩
  cases v <;> simp [PyVal.isStr, Employee4.name_setter, set_name_common]

/-- C5, instantiated at the spec's own examples: the integer `123` is
rejected with a `TypeError` and the string "Alice" is stored unchanged. -/
theorem C5_name_validation_witness :
    (∃ m, Employee4.name_setter (.int 123) = .error (.typeError m)) ∧
    Employee4.name_setter (.str "Alice") = .ok (.str "Alice") :=
  ⟨(C5_name_validation (.int 123) "Alice").2 rfl, (C5_name_validation (.int 123) "Alice").1⟩

/-- The Python float literal `3.5` (seven halves), represented exactly. -/
def threePointFive : Rat := ⟨7, 2, by decide, by decide⟩

/-- C4 counterexample: assigning the float `3.5` to the `Employee4` `age`
property succeeds — `isinstance(value, (int, float))` holds, so no conversion
happens and `3.5` is stored unchanged — yet the stored value is not an
integer, contradicting "the stored/returned result is a non-negative
integer". -/
theorem C4_counterexample :
    Employee4.age_setter (.float threePointFive) = .ok (.float threePointFive) ∧
    (PyVal.float threePointFive).isInt = false := by
  decide

/-- C4 amended: every value on which age validation succeeds is stored as a
non-negative number (an `int`, or a `float` stored unchanged); every negative
number is rejected with a `ValueError`, and every value that is neither a
number nor convertible by `int()` is rejected with a `TypeError` — in both
`Employee2.set_age` and the `Employee4` setter. -/
theorem C4_age_validation_amended (v r : PyVal) :
    (Employee4.age_setter v = .ok r → r.isNumber = true ∧ r.nonNeg = true) ∧
    (Employee2.set_age v = .ok r → r.isNumber = true ∧ r.nonNeg = true) ∧
    (v.ltZero = true →
      Employee4.age_setter v = .error (.valueError "Age must be a positive number") ∧
      Employee2.set_age v = .error (.valueError "Age must be positive")) ∧
    (v.isNumber = false → (∀ n : Int, intConvExc v ≠ .ok n) →
      (∃ m, Employee4.age_setter v = .error (.typeError m)) ∧
      (∃ m, Employee2.set_age v = .error (.typeError m))) := by
  refine ⟨?_, ?_, ?_, ?_⟩
  case _ =>
    intro h
    unfold Employee4.age_setter set_age_common at h
    cases v <;> simp [PyVal.isNumber] at h <;> try cases h
    · rename_i n
      by_cases hn : (PyVal.int n).ltZero <;> simp [hn] at h
      · cases h
        simp [PyVal.isNumber, PyVal.nonNeg]
        simpa [PyVal.ltZero] using hn
    · rename_i q
      by_cases hq : (PyVal.float q).ltZero <;> simp [hq] at h
      · cases h
        simp [PyVal.isNumber, PyVal.nonNeg]
        simpa [PyVal.ltZero] using hq
    · rename_i s
      cases hp : parseIntStr s <;> simp [intConvExc, hp] at h
      rename_i n
      by_cases hn : (PyVal.int n).ltZero <;> simp [hn] at h
      · cases h
        simp [PyVal.isNumber, PyVal.nonNeg]
        simpa [PyVal.ltZero] using hn
  case _ =>
    intro h
    unfold Employee2.set_age set_age_common at h
    cases v <;> simp [PyVal.isNumber] at h <;> try cases h
    · rename_i n
      by_cases hn : (PyVal.int n).ltZero <;> simp [hn] at h
      · cases h
        simp [PyVal.isNumber, PyVal.nonNeg]
        simpa [PyVal.ltZero] using hn
    · rename_i q
      by_cases hq : (PyVal.float q).ltZero <;> simp [hq] at h
      · cases h
        simp [PyVal.isNumber, PyVal.nonNeg]
        simpa [PyVal.ltZero] using hq
    · rename_i s
      cases hp : parseIntStr s <;> simp [intConvExc, hp] at h
      rename_i n
      by_cases hn : (PyVal.int n).ltZero <;> simp [hn] at h
      · cases h
        simp [PyVal.isNumber, PyVal.nonNeg]
        simpa [PyVal.ltZero] using hn
  case _ =>
    intro h
    have hnum : v.isNumber = true := by
      cases v <;> simp [PyVal.ltZero] at h <;> rfl
    constructor <;>
      simp [Employee4.age_setter, Employee2.set_age, set_age_common, hnum, h]
  case _ =>
    intro hnum hconv
    cases v <;> simp [PyVal.isNumber] at hnum
    · rename_i s
      cases hp : parseIntStr s with
      | some n => exact absurd (by simp [intConvExc, hp]) (hconv n)
      | none =>
          constructor <;>
            exact ⟨"Age must be numeric, got non-numeric type",
              by simp [Employee4.age_setter, Employee2.set_age,
                set_age_common, PyVal.isNumber, intConvExc, hp]⟩
    · constructor <;>
        exact ⟨"Age must be numeric, got non-numeric type",
          by simp [Employee4.age_setter, Employee2.set_age,
            set_age_common, PyVal.isNumber, intConvExc]⟩
    · constructor <;>
        exact ⟨"Age must be numeric, got non-numeric type",
          by simp [Employee4.age_setter, Employee2.set_age,
            set_age_common, PyVal.isNumber, intConvExc]⟩

/-- C4 amended, instantiated: the accepted string "30" is stored as the
non-negative number 30. -/
theorem C4_age_validation_amended_witness :
    (PyVal.int 30).isNumber = true ∧ (PyVal.int 30).nonNeg = true :=
  (C4_age_validation_amended (.str "30") (.int 30)).1 (by decide)

/-- Folding `Student` operations from any counter value adds exactly the
number of constructions among them. -/
theorem foldl_studentStep (ops : List StudentOp) (c : Nat) :
    ops.foldl studentStep c = c + (ops.filter StudentOp.isConstruct).length := by
  induction ops generalizing c with
  | nil => rfl
  | cons op rest ih =>
      cases op with
      | construct name =>
          simp [studentStep, StudentOp.isConstruct, List.filter, ih]
          omega
      | introduce => simp [studentStep, StudentOp.isConstruct, List.filter, ih]
      | student_count => simp [studentStep, StudentOp.isConstruct, List.filter, ih]

/-- Folding `Smartphone` operations from any counter value adds exactly the
number of constructions among them. -/
theorem foldl_smartphoneStep (ops : List SmartphoneOp) (c : Nat) :
    ops.foldl smartphoneStep c = c + (ops.filter SmartphoneOp.isConstruct).length := by
  induction ops generalizing c with
  | nil => rfl
  | cons op rest ih =>
      cases op with
      | construct model type_ =>
          simp [smartphoneStep, SmartphoneOp.isConstruct, List.filter, ih]
          omega
      | features => simp [smartphoneStep, SmartphoneOp.isConstruct, List.filter, ih]
      | set_model_type m t =>
          simp [smartphoneStep, SmartphoneOp.isConstruct, List.filter, ih]

/-- C10: the class-level counters count constructions exactly.  Each
construction increments the counter by exactly one, no other operation
changes it, and after any sequence of operations on a fresh class (counter
starting at 0) the counter equals the number of constructions performed. -/
theorem C10_counters_count_constructions (ops : List StudentOp)
    (ops2 : List SmartphoneOp) (c : Nat) (name : String)
    (model type_ : Option String) (m t : String) :
    runStudentOps ops = (ops.filter StudentOp.isConstruct).length ∧
    runSmartphoneOps ops2 = (ops2.filter SmartphoneOp.isConstruct).length ∧
    studentStep c (.construct name) = c + 1 ∧
    studentStep c .introduce = c ∧
    studentStep c .student_count = c ∧
    smartphoneStep c (.construct model type_) = c + 1 ∧
    smartphoneStep c .features = c ∧
    smartphoneStep c (.set_model_type m t) = c := by
  refine ⟨?_, ?_, rfl, rfl, rfl, rfl, rfl, rfl⟩
  · simpa [runStudentOps, total_students_init] using foldl_studentStep ops 0
  · simpa [runSmartphoneOps, counter_init] using foldl_smartphoneStep ops2 0
